import Mathlib

/-!
Shallow embedding of the chainagent chain-execution adapter:
`crates/domain/src/lib.rs` and
`crates/foundry_adapter/src/{lib,validation,constants,error}.rs`.

Network interaction is modelled by a `ProviderEnv` of oracles giving the
outcome of each node RPC call.  Every adapter operation returns, besides its
`Except` result, the ordered list of effectful steps it performed, so that
"aborts before gas estimation" or "no wallet lookup occurs" are statements
about that trace.

Machine integers (u64, U256) are modelled as `Nat`; the `ethers` library
functions the adapter calls (`H160::from_str`, the abbreviated `H160`
`Display`, `parse_ether`/`parse_units`) are translated from their Rust
sources, since the adapter's observable behavior depends on them.
-/

deriving instance DecidableEq for Except

namespace ChainAgent

/-! ## Hex machinery (rustc-hex / fixed-hash, as used by ethers H160/H256) -/

/-- Characters rustc-hex's decoder skips silently. -/
def isHexWhite (c : Char) : Bool :=
  c == ' ' || c == '\r' || c == '\n' || c == '\t'

/-- Value of one hex digit, accepting both cases (rustc-hex `FromHex`). -/
def hexVal (c : Char) : Option Nat :=
  if '0' ≤ c ∧ c ≤ '9' then some (c.toNat - '0'.toNat)
  else if 'a' ≤ c ∧ c ≤ 'f' then some (c.toNat - 'a'.toNat + 10)
  else if 'A' ≤ c ∧ c ≤ 'F' then some (c.toNat - 'A'.toNat + 10)
  else none

/-- Lowercase hex digit for formatting (Rust `{:02x}`). -/
def hexDigitChar (n : Nat) : Char :=
  if n < 10 then Char.ofNat ('0'.toNat + n) else Char.ofNat ('a'.toNat + n - 10)

def hexPadAux : Nat → Nat → List Char → List Char
  | 0, _, acc => acc
  | w + 1, n, acc => hexPadAux w (n / 16) (hexDigitChar (n % 16) :: acc)

/-- `n` written as exactly `w` lowercase hex digits, zero padded. -/
def hexPad (w : Nat) (n : Nat) : String := String.mk (hexPadAux w n [])

/-- An ethers `H160` address value (20 bytes), as its 160-bit number. -/
abbrev EthAddress := Nat

/-- `ethers_core::types::Address::from_str` (fixed-hash `FromStr` over
rustc-hex): strip one leading `0x`, skip whitespace, require exactly 40 hex
digits. -/
def EthAddress.from_str (input : String) : Option EthAddress :=
  let rest :=
    match input.toList with
    | '0' :: 'x' :: r => r
    | r => r
  let cs := rest.filter (fun c => !isHexWhite c)
  if cs.length == 40 && cs.all (fun c => (hexVal c).isSome) then
    some (cs.foldl (fun v c => v * 16 + (hexVal c).getD 0) 0)
  else none

/-- The `Display` impl of fixed-hash `H160` — what `addr.to_string()` yields
in the adapter: `0x`, the first two bytes, a `…`, the last two bytes. -/
def EthAddress.to_string (a : EthAddress) : String :=
  "0x" ++ hexPad 4 (a / 2 ^ 144) ++ "…" ++ hexPad 4 (a % 2 ^ 16)

/-- `format!("0x{:x}", h)` on an `H256` transaction hash: full 64 hex digits. -/
def format_tx_hash (h : Nat) : String := "0x" ++ hexPad 64 h

/-! ## domain crate (`crates/domain/src/lib.rs`) -/

structure Address where
  value : String
deriving Repr, DecidableEq

def Address.new (value : String) : Address := ⟨value⟩

def Address.as_str (a : Address) : String := a.value

structure EnsName where
  value : String
deriving Repr, DecidableEq

def EnsName.new (value : String) : EnsName := ⟨value⟩

inductive AddressOrEns where
  | address (a : Address)
  | ens (n : EnsName)
deriving Repr, DecidableEq

structure BalanceRequest where
  who : AddressOrEns
deriving Repr, DecidableEq

structure Erc20BalanceRequest where
  token : Address
  holder : Address
deriving Repr, DecidableEq

structure SendRequest where
  from_ : Address
  to_ : Address
  amount_eth : String
  simulate : Bool
  fork_block : Option Nat
deriving Repr, DecidableEq

structure TxResult where
  tx_hash : String
  gas_used : Option Nat
  status : Option Bool
deriving Repr, DecidableEq

def TxResult.new (tx_hash : String) (gas_used : Option Nat) (status : Option Bool) : TxResult :=
  ⟨tx_hash, gas_used, status⟩

structure SendRequestBuilder where
  from_ : Option Address := none
  to_ : Option Address := none
  amount_eth : Option String := none
  simulate : Option Bool := none
  fork_block : Option Nat := none
deriving Repr, DecidableEq

/-- `SendRequestBuilder::build`: `from`, `to`, `amount_eth` are required (in
that order); `simulate` defaults to `true`; `fork_block` passes through. -/
def SendRequestBuilder.build (b : SendRequestBuilder) : Except String SendRequest :=
  match b.from_ with
  | none => .error "from required"
  | some f =>
    match b.to_ with
    | none => .error "to required"
    | some t =>
      match b.amount_eth with
      | none => .error "amount_eth required"
      | some a =>
        .ok { from_ := f, to_ := t, amount_eth := a,
              simulate := b.simulate.getD true, fork_block := b.fork_block }

/-! ## ethers `parse_ether` (`parse_units` with 18 decimals) -/

/-- `U256::from_dec_str`: decimal digits only (empty parses as 0), value must
fit 256 bits. -/
def from_dec_str (cs : List Char) : Option Nat :=
  if cs.all Char.isDigit then
    let v := cs.foldl (fun a c => a * 10 + (c.toNat - '0'.toNat)) 0
    if v < 2 ^ 256 then some v else none
  else none

/-- `ethers_core::utils::parse_units(amount, 18)`, then `ParseUnits → U256`:
drop `_`, note and drop a leading `-`, remove the first `.` remembering how
many digits followed it, truncate fractional digits past 18, scale by
`10^(18 - dec_len)`, parse as decimal; a negative result is returned as its
two's-complement `U256` raw value (`I256::into_raw`). -/
def parse_units_18 (amount : String) : Option Nat :=
  let cs0 := amount.toList.filter (fun c => c != '_')
  let negative := cs0.head?.getD '\x00' == '-'
  let cs1 := if negative then cs0.tail else cs0
  let exponent := 18
  let pr :=
    match cs1.findIdx? (fun c => c == '.') with
    | some di => (cs1.take di ++ cs1.drop (di + 1), cs1.length - 1 - di)
    | none => (cs1, 0)
  let digits := pr.1
  let dec_len := pr.2
  let digitsScaled :=
    if dec_len > exponent then digits.take (digits.length - (dec_len - exponent))
    else digits ++ List.replicate (exponent - dec_len) '0'
  match from_dec_str digitsScaled with
  | none => none
  | some v =>
    if negative then
      if v ≤ 2 ^ 255 then some ((2 ^ 256 - v) % 2 ^ 256) else none
    else some v

def parse_ether (amount : String) : Option Nat := parse_units_18 amount

/-! ## foundry_adapter crate -/

/-- `validation::normalize`: lowercase the address string (addresses are
ASCII, so per-character lowercasing matches Rust `to_lowercase`). -/
def normalize (address : String) : String :=
  String.mk (address.toList.map Char.toLower)

/-- `foundry_adapter::is_checksum_address` — the body is a stubbed
`// TODO: implement EIP-55 validation` returning `true`. -/
def is_checksum_address (_addr : String) : Bool := true

/-- `error::AdapterError` (provider / abi / contract / signer / anyhow errors
carried as their message). -/
inductive AdapterError where
  | chainIdMismatch (got : Nat) (expected : Nat)
  | gasCapExceeded (estimated : Nat) (cap : Nat)
  | missingLocalKey (addr : String)
  | provider (e : String)
  | abi (e : String)
  | contract (e : String)
  | signer (e : String)
  | addrParse (a : String)
  | other (e : String)
deriving Repr, DecidableEq

/-- The effectful steps an adapter call can perform, in order.  All but
`walletLookup` are node round-trips; `walletLookup` records a read of the
in-memory wallet registry. -/
inductive Step where
  | getChainId
  | resolveName
  | getBalance
  | estimateGas
  | callSim
  | walletLookup
  | sendTransaction
  | awaitReceipt
  | contractCall
deriving Repr, DecidableEq

/-- The transfer transaction the pipeline builds:
`TransactionRequest::new().from(..).to(..).value(..)`, with `set_gas` later
filling `gas`. -/
structure TransactionRequest where
  from_ : EthAddress
  to_ : EthAddress
  value : Nat
  gas : Option Nat
deriving Repr, DecidableEq

/-- The fields of an ethers `TransactionReceipt` the adapter reads. -/
structure TransactionReceipt where
  transaction_hash : Nat
  status : Option Nat
  gas_used : Option Nat
deriving Repr, DecidableEq

/-- A local signing credential (`LocalWallet`), identified by its key string. -/
abbrev LocalWallet := String

/-- Oracle for the node: the outcome of each RPC the adapter may issue.
`estimate_gas` models `est.as_u64()` of the node's estimate. -/
structure ProviderEnv where
  get_chainid : Except String Nat
  resolve_name : String → Except String EthAddress
  get_balance_call : EthAddress → Except String Nat
  estimate_gas : TransactionRequest → Except String Nat
  call_tx : TransactionRequest → Except String Unit
  send_transaction : TransactionRequest → Except String Nat
  wait_receipt : Nat → Except String (Option TransactionReceipt)
  erc20_balance_call : EthAddress → EthAddress → Except String Nat

/-- `FoundryAdapter` state (the `provider` field is the `ProviderEnv` passed
to each operation). -/
structure FoundryAdapter where
  rpc_url : String
  gas_cap : Nat
  expected_chain_id : Option Nat
  known_wallets : List (String × LocalWallet)
deriving Repr, DecidableEq

/-! ### constants.rs -/

def DEFAULT_GAS_CAP : Nat := 30000000

def DEFAULT_RPC_URL : String := "http://127.0.0.1:8545"

def ANVIL_ACCOUNT_0 : String := "0xf39fd6e51aad88f6f4ce6ab8827279cfffb92266"
def ANVIL_ACCOUNT_1 : String := "0x70997970c51812dc3a010c7d01b50e0d17dc79c8"
def ANVIL_ACCOUNT_2 : String := "0x3c44cdddb6a900fa2b585dd299e03d12fa4293bc"
def ANVIL_ACCOUNT_3 : String := "0x90f79bf6eb2c4f870365e785982e1f101e93b906"
def ANVIL_ACCOUNT_4 : String := "0x15d34aaf54267db7d7c367839aaf71a00a2c6a65"

/-- `get_anvil_accounts`: the five constants parsed as addresses (each
`.parse().unwrap()` succeeds, so `getD 0` is never the fallback). -/
def get_anvil_accounts : List EthAddress :=
  [(EthAddress.from_str ANVIL_ACCOUNT_0).getD 0,
   (EthAddress.from_str ANVIL_ACCOUNT_1).getD 0,
   (EthAddress.from_str ANVIL_ACCOUNT_2).getD 0,
   (EthAddress.from_str ANVIL_ACCOUNT_3).getD 0,
   (EthAddress.from_str ANVIL_ACCOUNT_4).getD 0]

/-- The private keys hard-coded in `FoundryAdapter::new`. -/
def anvil_private_keys : List LocalWallet :=
  ["0xac0974bec39a17e36ba4a6b4d238ff944bacb478cbed5efcae784d7bf4f2ff80",
   "0x59c6995e998f97a5a0044966f0945389dc9e86dae88c7a8412f4603b6b78690d",
   "0x5de4111afa1a4b94908f83103eb1f1706367c2e68ca870fc3fb9a804cdab365a",
   "0x7c852118e8d7e3b58184ae9b0c2aa26a2d4f9b6c3b6b6b6b6b6b6b6b6b6b6b6b",
   "0x47e179ec197488593b187f80a00eb0da91f1b9d0b13f8733639f19c30a34926a"]

/-- `FoundryAdapter::new`: registry keyed by `normalize(&addr.to_string())`
(note: `to_string()` is the abbreviated `Display` form). -/
def FoundryAdapter.new (rpc_url : String) : FoundryAdapter :=
  { rpc_url := rpc_url
    gas_cap := DEFAULT_GAS_CAP
    expected_chain_id := none
    known_wallets :=
      (get_anvil_accounts.zip anvil_private_keys).map
        (fun p => (normalize (EthAddress.to_string p.1), p.2)) }

def FoundryAdapter.with_expected_chain_id (self : FoundryAdapter) (chain_id : Nat) :
    FoundryAdapter :=
  { self with expected_chain_id := some chain_id }

def FoundryAdapter.with_gas_cap (self : FoundryAdapter) (gas_cap : Nat) : FoundryAdapter :=
  { self with gas_cap := gas_cap }

/-! ### Adapter operations -/

/-- `FoundryAdapter::resolve_address_or_ens`.  The Address variant is pure
parsing; the Ens variant is one `resolve_name` round-trip.  Both return
`Address::new(parsed.to_string())` with the abbreviated `Display` form. -/
def resolve_address_or_ens (env : ProviderEnv) (input : AddressOrEns) :
    Except AdapterError Address × List Step :=
  match input with
  | .address addr =>
    match EthAddress.from_str addr.value with
    | none => (.error (.addrParse addr.value), [])
    | some parsed => (.ok (Address.new (EthAddress.to_string parsed)), [])
  | .ens name =>
    match env.resolve_name name.value with
    | .error e => (.error (.provider e), [.resolveName])
    | .ok resolved => (.ok (Address.new (EthAddress.to_string resolved)), [.resolveName])

/-- `FoundryAdapter::get_balance`: resolve, re-parse the resolved string, one
balance call; the balance is returned in decimal. -/
def get_balance (env : ProviderEnv) (req : BalanceRequest) :
    Except AdapterError String × List Step :=
  match resolve_address_or_ens env req.who with
  | (.error e, tr) => (.error e, tr)
  | (.ok addr, tr) =>
    match EthAddress.from_str addr.value with
    | none => (.error (.addrParse addr.value), tr)
    | some a =>
      match env.get_balance_call a with
      | .error e => (.error (.provider e), tr ++ [.getBalance])
      | .ok bal => (.ok (Nat.repr bal), tr ++ [.getBalance])

/-- `FoundryAdapter::erc20_balance_of`: parse token then holder (each failure
is `AddrParse` with the offending string), build the constant one-method ABI
(`parse_abi_str` on a fixed valid literal, which succeeds), then one
read-only contract call. -/
def erc20_balance_of (env : ProviderEnv) (req : Erc20BalanceRequest) :
    Except AdapterError String × List Step :=
  match EthAddress.from_str req.token.value with
  | none => (.error (.addrParse req.token.value), [])
  | some token =>
    match EthAddress.from_str req.holder.value with
    | none => (.error (.addrParse req.holder.value), [])
    | some holder =>
      match env.erc20_balance_call token holder with
      | .error e => (.error (.other e), [.contractCall])
      | .ok amount => (.ok (Nat.repr amount), [.contractCall])

/-- The chain-identity guard opening `send_eth`: if an expected chain id is
configured, fetch the live id and fail on mismatch; otherwise do nothing. -/
def chain_guard (self : FoundryAdapter) (env : ProviderEnv) :
    Except AdapterError Unit × List Step :=
  match self.expected_chain_id with
  | none => (.ok (), [])
  | some expected =>
    match env.get_chainid with
    | .error e => (.error (.provider e), [.getChainId])
    | .ok chain_id =>
      if chain_id ≠ expected then (.error (.chainIdMismatch chain_id expected), [.getChainId])
      else (.ok (), [.getChainId])

/-- `FoundryAdapter::send_eth` after the chain-identity guard: parse sender
and recipient, parse the amount, estimate gas, enforce the cap, simulate,
then branch on `simulate`; the broadcast branch looks up the wallet,
re-fetches the chain id for signing, submits, and reconciles the receipt. -/
def send_eth_pipeline (self : FoundryAdapter) (env : ProviderEnv) (req : SendRequest) :
    Except AdapterError TxResult × List Step :=
  match EthAddress.from_str req.from_.value with
  | none => (.error (.addrParse req.from_.value), [])
  | some from_addr =>
  match EthAddress.from_str req.to_.value with
  | none => (.error (.addrParse req.to_.value), [])
  | some to_addr =>
  match parse_ether req.amount_eth with
  | none => (.error (.other ("invalid decimal amount: " ++ req.amount_eth)), [])
  | some value =>
  match env.estimate_gas (TransactionRequest.mk from_addr to_addr value none) with
  | .error e => (.error (.provider e), [.estimateGas])
  | .ok est =>
  if est > self.gas_cap then
    (.error (.gasCapExceeded est self.gas_cap), [.estimateGas])
  else
  match env.call_tx (TransactionRequest.mk from_addr to_addr value (some est)) with
  | .error e => (.error (.provider e), [.estimateGas, .callSim])
  | .ok _ =>
  if req.simulate then
    (.ok (TxResult.new "" (some est) none), [.estimateGas, .callSim])
  else
  match self.known_wallets.lookup (normalize req.from_.value) with
  | none => (.error (.missingLocalKey req.from_.value), [.estimateGas, .callSim, .walletLookup])
  | some _wallet =>
  match env.get_chainid with
  | .error e => (.error (.provider e), [.estimateGas, .callSim, .walletLookup, .getChainId])
  | .ok _chain_id =>
  match env.send_transaction (TransactionRequest.mk from_addr to_addr value (some est)) with
  | .error e =>
    (.error (.other e), [.estimateGas, .callSim, .walletLookup, .getChainId, .sendTransaction])
  | .ok tx_hash =>
  match env.wait_receipt tx_hash with
  | .error e =>
    (.error (.provider e),
     [.estimateGas, .callSim, .walletLookup, .getChainId, .sendTransaction, .awaitReceipt])
  | .ok (some rcpt) =>
    (.ok (TxResult.new (format_tx_hash rcpt.transaction_hash) rcpt.gas_used
       (rcpt.status.map (fun s => s == 1))),
     [.estimateGas, .callSim, .walletLookup, .getChainId, .sendTransaction, .awaitReceipt])
  | .ok none =>
    (.ok (TxResult.new (format_tx_hash tx_hash) (some est) none),
     [.estimateGas, .callSim, .walletLookup, .getChainId, .sendTransaction, .awaitReceipt])

/-- `FoundryAdapter::send_eth`: the chain-identity guard followed by the
rest of the pipeline. -/
def send_eth (self : FoundryAdapter) (env : ProviderEnv) (req : SendRequest) :
    Except AdapterError TxResult × List Step :=
  match chain_guard self env with
  | (.error e, tr) => (.error e, tr)
  | (.ok _, tr) =>
    ((send_eth_pipeline self env req).1, tr ++ (send_eth_pipeline self env req).2)

/-! ## Test fixtures: concrete environments, adapters, requests -/

/-- A provider whose live chain id is 31337 (a local devnet) and whose
estimate for any transfer is 21000 gas; submission yields hash `0xcafe`
(51966) and no receipt ever arrives. -/
def envDevnet : ProviderEnv :=
  { get_chainid := .ok 31337
    resolve_name := fun _ => .error "ens lookup unavailable"
    get_balance_call := fun _ => .ok 0
    estimate_gas := fun _ => .ok 21000
    call_tx := fun _ => .ok ()
    send_transaction := fun _ => .ok 51966
    wait_receipt := fun _ => .ok none
    erc20_balance_call := fun _ _ => .ok 0 }

/-- Same provider but reporting chain id 1. -/
def envChainId1 : ProviderEnv := { envDevnet with get_chainid := .ok 1 }

/-- Same provider but a receipt arrives: hash `0xcafebabe` (3405691582),
status flag 1, 31000 gas consumed. -/
def envReceipt : ProviderEnv :=
  { envDevnet with
    wait_receipt := fun _ => .ok (some ⟨3405691582, some 1, some 31000⟩) }

/-- An adapter expecting chain id 1 (mainnet). -/
def adapterExpect1 : FoundryAdapter :=
  (FoundryAdapter.new DEFAULT_RPC_URL).with_expected_chain_id 1

/-- An adapter whose registry holds a key for Alice under her full
lowercase address. -/
def adapterWithKey : FoundryAdapter :=
  { FoundryAdapter.new DEFAULT_RPC_URL with
    known_wallets :=
      [(normalize ANVIL_ACCOUNT_0,
        "0xac0974bec39a17e36ba4a6b4d238ff944bacb478cbed5efcae784d7bf4f2ff80")] }

/-- A 0.1-ETH simulate-only transfer from Alice to Bob. -/
def reqAliceBob : SendRequest :=
  { from_ := Address.new ANVIL_ACCOUNT_0, to_ := Address.new ANVIL_ACCOUNT_1,
    amount_eth := "0.1", simulate := true, fork_block := none }

/-- The same transfer as a broadcast request. -/
def reqBroadcast : SendRequest := { reqAliceBob with simulate := false }

/-- A broadcast transfer whose amount string is not a decimal. -/
def reqBadAmount : SendRequest :=
  { reqAliceBob with amount_eth := "one ether", simulate := false }

/-! ## Helper lemmas -/

theorem mem_chain_guard_trace (self : FoundryAdapter) (env : ProviderEnv) (s : Step)
    (h : s ∈ (chain_guard self env).2) : s = Step.getChainId := by
  unfold chain_guard at h
  split at h
  · simp at h
  · split at h
    · simpa using h
    · split at h <;> simpa using h

theorem not_mem_guard_append (self : FoundryAdapter) (env : ProviderEnv) (s : Step)
    (l : List Step) (h1 : s ≠ Step.getChainId) (h2 : s ∉ l) :
    s ∉ (chain_guard self env).2 ++ l := by
  intro hmem
  rcases List.mem_append.mp hmem with h | h
  · exact h1 (mem_chain_guard_trace self env s h)
  · exact h2 h

theorem send_eth_guard_ok (self : FoundryAdapter) (env : ProviderEnv) (req : SendRequest)
    (h : (chain_guard self env).1 = .ok ()) :
    send_eth self env req =
      ((send_eth_pipeline self env req).1,
       (chain_guard self env).2 ++ (send_eth_pipeline self env req).2) := by
  unfold send_eth
  rcases hcg : chain_guard self env with ⟨g, tr⟩
  rw [hcg] at h
  simp only at h
  cases g with
  | error e => simp at h
  | ok u => cases u; simp

/-! ## Claims -/

/-- Claim C1: if an expected chain identifier is configured and the live id
differs, `send_eth` returns `ChainIdMismatch` having performed exactly the
chain-id fetch — no gas estimation or any later pipeline step; with no
expected chain id configured, `send_eth` is exactly the guard-free pipeline
(the identity check is skipped entirely). -/
theorem C1_chain_id_guard (self : FoundryAdapter) (env : ProviderEnv) (req : SendRequest) :
    (∀ expected got, self.expected_chain_id = some expected →
       env.get_chainid = .ok got → got ≠ expected →
       send_eth self env req
         = (.error (.chainIdMismatch got expected), [Step.getChainId]))
    ∧ (self.expected_chain_id = none →
       send_eth self env req = send_eth_pipeline self env req) := by
  constructor
  · intro expected got hexp hcid hne
    have hcg : chain_guard self env
        = (.error (.chainIdMismatch got expected), [Step.getChainId]) := by
      unfold chain_guard
      rw [hexp, hcid]
      simp [hne]
    unfold send_eth
    rw [hcg]
  · intro hnone
    have hcg : chain_guard self env = (.ok (), []) := by
      unfold chain_guard
      rw [hnone]
    unfold send_eth
    rw [hcg]
    simp

/-- Witness for C1: an adapter expecting chain id 1 against a node reporting
31337 fails with the mismatch, with the chain-id fetch as the only step. -/
theorem C1_witness :
    send_eth adapterExpect1 envDevnet reqAliceBob
      = (.error (.chainIdMismatch 31337 1), [Step.getChainId]) :=
  (C1_chain_id_guard adapterExpect1 envDevnet reqAliceBob).1 1 31337 rfl rfl (by decide)

/-- Claim C5 (recorded as a code bug): resolving a valid hex address is pure
parsing (empty step trace), but it is NOT idempotent: the adapter returns
`Address::new(parsed.to_string())`, and the `Display` of an ethers `H160` is
the abbreviated `0xf39f…2266` form, which fails to re-parse.  So
`resolve (resolve a)` is an `AddrParse` error while `resolve a` succeeds,
contradicting the spec's idempotence property (and the adapter's own
`get_balance`, which re-parses the resolved string). -/
theorem C5_resolve_address_not_idempotent :
    (resolve_address_or_ens envDevnet (.address (Address.new ANVIL_ACCOUNT_0))).1
      = .ok (Address.new "0xf39f…2266")
    ∧ (resolve_address_or_ens envDevnet (.address (Address.new "0xf39f…2266"))).1
      = .error (.addrParse "0xf39f…2266")
    ∧ (resolve_address_or_ens envDevnet (.address (Address.new ANVIL_ACCOUNT_0))).2 = [] :=
  ⟨by decide, by decide, by decide⟩

/-- Claim C6: the `SendRequest` builder fails whenever `from`, `to` or
`amount_eth` is unset, and with all three set and `simulate` unset it builds
a request with `simulate = true`. -/
theorem C6_builder_required_fields_and_default (b : SendRequestBuilder) :
    ((b.from_ = none ∨ b.to_ = none ∨ b.amount_eth = none) →
       ∃ e, b.build = .error e)
    ∧ (∀ f t a, b.from_ = some f → b.to_ = some t → b.amount_eth = some a →
         b.simulate = none →
         b.build = .ok { from_ := f, to_ := t, amount_eth := a, simulate := true,
                         fork_block := b.fork_block }) := by
  constructor
  · intro h
    unfold SendRequestBuilder.build
    cases hf : b.from_ with
    | none => exact ⟨_, rfl⟩
    | some f =>
      cases ht : b.to_ with
      | none => exact ⟨_, rfl⟩
      | some t =>
        cases ha : b.amount_eth with
        | none => exact ⟨_, rfl⟩
        | some a => rcases h with h | h | h <;> simp_all
  · intro f t a hf ht ha hs
    unfold SendRequestBuilder.build
    rw [hf, ht, ha, hs]
    rfl

/-- Witness for C6: a builder missing `to` fails; a full builder with
`simulate` unset builds with `simulate = true`. -/
theorem C6_witness :
    (∃ e, SendRequestBuilder.build
        { from_ := some (Address.new ANVIL_ACCOUNT_0), amount_eth := some "1.0" }
        = .error e)
    ∧ SendRequestBuilder.build
        { from_ := some (Address.new ANVIL_ACCOUNT_0),
          to_ := some (Address.new ANVIL_ACCOUNT_1), amount_eth := some "1.0" }
        = .ok { from_ := Address.new ANVIL_ACCOUNT_0, to_ := Address.new ANVIL_ACCOUNT_1,
                amount_eth := "1.0", simulate := true, fork_block := none } :=
  ⟨(C6_builder_required_fields_and_default _).1 (Or.inr (Or.inl rfl)),
   (C6_builder_required_fields_and_default _).2 _ _ _ rfl rfl rfl rfl⟩

/-- Claim C8: a fungible-token balance query whose token — or, with a
well-formed token, whose holder — is a malformed hex string returns
`AddrParse` with an empty step trace: no network call at all. -/
theorem C8_erc20_malformed_address_no_network (env : ProviderEnv)
    (req : Erc20BalanceRequest) :
    (EthAddress.from_str req.token.value = none →
       erc20_balance_of env req = (.error (.addrParse req.token.value), []))
    ∧ (∀ tok, EthAddress.from_str req.token.value = some tok →
         EthAddress.from_str req.holder.value = none →
         erc20_balance_of env req = (.error (.addrParse req.holder.value), [])) := by
  constructor
  · intro h
    unfold erc20_balance_of
    rw [h]
  · intro tok h1 h2
    unfold erc20_balance_of
    rw [h1, h2]

/-- Witness for C8: a malformed token address, and a malformed holder with a
valid token, each fail with `AddrParse` and no steps. -/
theorem C8_witness :
    erc20_balance_of envDevnet
        { token := Address.new "not-an-address", holder := Address.new ANVIL_ACCOUNT_0 }
      = (.error (.addrParse "not-an-address"), [])
    ∧ erc20_balance_of envDevnet
        { token := Address.new ANVIL_ACCOUNT_0, holder := Address.new "0x123" }
      = (.error (.addrParse "0x123"), []) :=
  ⟨(C8_erc20_malformed_address_no_network envDevnet _).1 (by decide),
   (C8_erc20_malformed_address_no_network envDevnet _).2
     0xf39fd6e51aad88f6f4ce6ab8827279cfffb92266 (by decide) (by decide)⟩

/-- Claim C10: `is_checksum_address` returns `true` on every input — the
body is a TODO stub, so EIP-55 validation never happens here. -/
theorem C10_is_checksum_address_always_true (addr : String) :
    is_checksum_address addr = true := rfl

/-- Claim C2: with the guard passed, both parties and the amount parsed, and
the node estimating `est`, `send_eth` fails with `GasCapExceeded{est, cap}`
whenever `est > cap`, performing no simulation call, wallet lookup,
submission, or receipt wait; and whenever `est ≤ cap` it never returns
`GasCapExceeded`. -/
theorem C2_gas_cap_enforced (self : FoundryAdapter) (env : ProviderEnv) (req : SendRequest)
    (fa ta v est : Nat)
    (hguard : (chain_guard self env).1 = .ok ())
    (hf : EthAddress.from_str req.from_.value = some fa)
    (ht : EthAddress.from_str req.to_.value = some ta)
    (ha : parse_ether req.amount_eth = some v)
    (hest : env.estimate_gas (TransactionRequest.mk fa ta v none) = .ok est) :
    (est > self.gas_cap →
       (send_eth self env req).1 = .error (.gasCapExceeded est self.gas_cap)
       ∧ Step.callSim ∉ (send_eth self env req).2
       ∧ Step.walletLookup ∉ (send_eth self env req).2
       ∧ Step.sendTransaction ∉ (send_eth self env req).2
       ∧ Step.awaitReceipt ∉ (send_eth self env req).2)
    ∧ (est ≤ self.gas_cap →
       ∀ e c, (send_eth self env req).1 ≠ .error (.gasCapExceeded e c)) := by
  rw [send_eth_guard_ok self env req hguard]
  constructor
  · intro hgt
    have hp : send_eth_pipeline self env req
        = (.error (.gasCapExceeded est self.gas_cap), [Step.estimateGas]) := by
      unfold send_eth_pipeline
      simp only [hf, ht, ha, hest]
      rw [if_pos hgt]
    rw [hp]
    refine ⟨rfl, ?_, ?_, ?_, ?_⟩ <;> (apply not_mem_guard_append <;> simp)
  · intro hle e c
    have hng : ¬ est > self.gas_cap := by omega
    unfold send_eth_pipeline
    simp only [hf, ht, ha, hest]
    rw [if_neg hng]
    rcases h1 : env.call_tx (TransactionRequest.mk fa ta v (some est)) with e1 | u
    · simp [h1]
    · by_cases hs : req.simulate = true
      · simp [h1, hs]
      · rcases h2 : self.known_wallets.lookup (normalize req.from_.value) with _ | w
        · simp [h1, hs, h2]
        · rcases h3 : env.get_chainid with e3 | cid
          · simp [h1, hs, h2, h3]
          · rcases h4 : env.send_transaction (TransactionRequest.mk fa ta v (some est))
              with e4 | txh
            · simp [h1, hs, h2, h3, h4]
            · rcases h6 : env.wait_receipt txh with e6 | r
              · simp [h1, hs, h2, h3, h4, h6]
              · rcases r with _ | rcpt <;> simp [h1, hs, h2, h3, h4, h6]

/-- Witness for C2: cap 1000, estimate 21000 — the transfer fails with
`GasCapExceeded{21000, 1000}` and the simulation call never happens. -/
theorem C2_witness :
    (send_eth ((FoundryAdapter.new DEFAULT_RPC_URL).with_gas_cap 1000) envDevnet reqAliceBob).1
      = .error (.gasCapExceeded 21000 1000)
    ∧ Step.callSim ∉
        (send_eth ((FoundryAdapter.new DEFAULT_RPC_URL).with_gas_cap 1000) envDevnet
          reqAliceBob).2 := by
  have h := (C2_gas_cap_enforced ((FoundryAdapter.new DEFAULT_RPC_URL).with_gas_cap 1000)
    envDevnet reqAliceBob
    0xf39fd6e51aad88f6f4ce6ab8827279cfffb92266 0x70997970c51812dc3a010c7d01b50e0d17dc79c8
    100000000000000000 21000 rfl (by decide) (by decide) (by decide) rfl).1 (by decide)
  exact ⟨h.1, h.2.1⟩

/-- Claim C3: a simulate-only transfer that passes the guard, parsing,
estimation (within cap), and the simulation call returns a `TxResult` with
empty hash, the estimated gas, and no status, and the wallet registry is
never read. -/
theorem C3_simulate_only_result (self : FoundryAdapter) (env : ProviderEnv) (req : SendRequest)
    (fa ta v est : Nat)
    (hguard : (chain_guard self env).1 = .ok ())
    (hf : EthAddress.from_str req.from_.value = some fa)
    (ht : EthAddress.from_str req.to_.value = some ta)
    (ha : parse_ether req.amount_eth = some v)
    (hest : env.estimate_gas (TransactionRequest.mk fa ta v none) = .ok est)
    (hcap : ¬ est > self.gas_cap)
    (hcall : env.call_tx (TransactionRequest.mk fa ta v (some est)) = .ok ())
    (hsim : req.simulate = true) :
    (send_eth self env req).1 = .ok (TxResult.new "" (some est) none)
    ∧ Step.walletLookup ∉ (send_eth self env req).2 := by
  rw [send_eth_guard_ok self env req hguard]
  have hp : send_eth_pipeline self env req
      = (.ok (TxResult.new "" (some est) none), [Step.estimateGas, Step.callSim]) := by
    unfold send_eth_pipeline
    simp only [hf, ht, ha, hest]
    rw [if_neg hcap]
    simp only [hcall, hsim, if_true]
  rw [hp]
  exact ⟨rfl, by apply not_mem_guard_append <;> simp⟩

/-- Witness for C3: the default adapter simulating Alice→Bob returns the
empty-hash result with gas 21000 and no status, without reading the
registry. -/
theorem C3_witness :
    (send_eth (FoundryAdapter.new DEFAULT_RPC_URL) envDevnet reqAliceBob).1
      = .ok (TxResult.new "" (some 21000) none)
    ∧ Step.walletLookup ∉
        (send_eth (FoundryAdapter.new DEFAULT_RPC_URL) envDevnet reqAliceBob).2 :=
  C3_simulate_only_result (FoundryAdapter.new DEFAULT_RPC_URL) envDevnet reqAliceBob
    0xf39fd6e51aad88f6f4ce6ab8827279cfffb92266 0x70997970c51812dc3a010c7d01b50e0d17dc79c8
    100000000000000000 21000 rfl (by decide) (by decide) (by decide) rfl (by decide) rfl rfl

/-- Claim C7: a broadcast transfer that passes the guard, parsing,
estimation, and simulation, but whose normalized sender has no registry
entry, fails with `MissingLocalKey(sender)` after having performed the gas
estimation and the simulation call, and nothing is submitted. -/
theorem C7_missing_local_key (self : FoundryAdapter) (env : ProviderEnv) (req : SendRequest)
    (fa ta v est : Nat)
    (hguard : (chain_guard self env).1 = .ok ())
    (hf : EthAddress.from_str req.from_.value = some fa)
    (ht : EthAddress.from_str req.to_.value = some ta)
    (ha : parse_ether req.amount_eth = some v)
    (hest : env.estimate_gas (TransactionRequest.mk fa ta v none) = .ok est)
    (hcap : ¬ est > self.gas_cap)
    (hcall : env.call_tx (TransactionRequest.mk fa ta v (some est)) = .ok ())
    (hsim : req.simulate = false)
    (hw : self.known_wallets.lookup (normalize req.from_.value) = none) :
    (send_eth self env req).1 = .error (.missingLocalKey req.from_.value)
    ∧ Step.estimateGas ∈ (send_eth self env req).2
    ∧ Step.callSim ∈ (send_eth self env req).2
    ∧ Step.sendTransaction ∉ (send_eth self env req).2
    ∧ Step.awaitReceipt ∉ (send_eth self env req).2 := by
  rw [send_eth_guard_ok self env req hguard]
  have hp : send_eth_pipeline self env req
      = (.error (.missingLocalKey req.from_.value),
         [Step.estimateGas, Step.callSim, Step.walletLookup]) := by
    unfold send_eth_pipeline
    simp only [hf, ht, ha, hest]
    rw [if_neg hcap]
    simp only [hcall, hsim, if_false, Bool.false_eq_true, hw]
  rw [hp]
  refine ⟨rfl, ?_, ?_, ?_, ?_⟩
  · exact List.mem_append.mpr (Or.inr (by simp))
  · exact List.mem_append.mpr (Or.inr (by simp))
  · apply not_mem_guard_append <;> simp
  · apply not_mem_guard_append <;> simp

/-- Witness for C7: the adapter built by `FoundryAdapter::new` keys its
registry by the abbreviated display form, so Alice's full address has no
entry and her broadcast fails at signing with `MissingLocalKey`, after
estimation and simulation ran. -/
theorem C7_witness :
    (send_eth (FoundryAdapter.new DEFAULT_RPC_URL) envDevnet reqBroadcast).1
      = .error (.missingLocalKey ANVIL_ACCOUNT_0)
    ∧ Step.estimateGas ∈ (send_eth (FoundryAdapter.new DEFAULT_RPC_URL) envDevnet reqBroadcast).2
    ∧ Step.sendTransaction ∉
        (send_eth (FoundryAdapter.new DEFAULT_RPC_URL) envDevnet reqBroadcast).2 := by
  have h := C7_missing_local_key (FoundryAdapter.new DEFAULT_RPC_URL) envDevnet reqBroadcast
    0xf39fd6e51aad88f6f4ce6ab8827279cfffb92266 0x70997970c51812dc3a010c7d01b50e0d17dc79c8
    100000000000000000 21000 rfl (by decide) (by decide) (by decide) rfl (by decide) rfl rfl
    (by decide)
  exact ⟨h.1, h.2.1, h.2.2.2.1⟩

/-- Claim C9: on the broadcast branch, once submission returns hash `txh`,
a missing receipt yields a successful result carrying `txh`, the estimated
gas, and no status; a present receipt yields a result carrying the
receipt's hash, its gas consumption, and its status flag compared against
1 as a boolean. -/
theorem C9_receipt_reconciliation (self : FoundryAdapter) (env : ProviderEnv) (req : SendRequest)
    (fa ta v est : Nat) (w : LocalWallet) (cid txh : Nat)
    (hguard : (chain_guard self env).1 = .ok ())
    (hf : EthAddress.from_str req.from_.value = some fa)
    (ht : EthAddress.from_str req.to_.value = some ta)
    (ha : parse_ether req.amount_eth = some v)
    (hest : env.estimate_gas (TransactionRequest.mk fa ta v none) = .ok est)
    (hcap : ¬ est > self.gas_cap)
    (hcall : env.call_tx (TransactionRequest.mk fa ta v (some est)) = .ok ())
    (hsim : req.simulate = false)
    (hw : self.known_wallets.lookup (normalize req.from_.value) = some w)
    (hcid : env.get_chainid = .ok cid)
    (hsend : env.send_transaction (TransactionRequest.mk fa ta v (some est)) = .ok txh) :
    (env.wait_receipt txh = .ok none →
       (send_eth self env req).1
         = .ok (TxResult.new (format_tx_hash txh) (some est) none))
    ∧ (∀ rcpt, env.wait_receipt txh = .ok (some rcpt) →
       (send_eth self env req).1
         = .ok (TxResult.new (format_tx_hash rcpt.transaction_hash) rcpt.gas_used
             (rcpt.status.map (fun s => s == 1)))) := by
  rw [send_eth_guard_ok self env req hguard]
  constructor
  · intro hrc
    have hp : (send_eth_pipeline self env req).1
        = .ok (TxResult.new (format_tx_hash txh) (some est) none) := by
      unfold send_eth_pipeline
      simp only [hf, ht, ha, hest]
      rw [if_neg hcap]
      simp only [hcall, hsim, if_false, Bool.false_eq_true, hw, hcid, hsend, hrc]
    rw [hp]
  · intro rcpt hrc
    have hp : (send_eth_pipeline self env req).1
        = .ok (TxResult.new (format_tx_hash rcpt.transaction_hash) rcpt.gas_used
            (rcpt.status.map (fun s => s == 1))) := by
      unfold send_eth_pipeline
      simp only [hf, ht, ha, hest]
      rw [if_neg hcap]
      simp only [hcall, hsim, if_false, Bool.false_eq_true, hw, hcid, hsend, hrc]
    rw [hp]

/-- Witness for C9: with a registry entry for Alice's full address, a
broadcast with no receipt returns the pre-submission hash `0xcafe` with the
estimate and no status; with a receipt it returns the receipt's hash
`0xcafebabe`, its consumed gas 31000, and status `true`. -/
theorem C9_witness :
    (send_eth adapterWithKey envDevnet reqBroadcast).1
      = .ok (TxResult.new (format_tx_hash 51966) (some 21000) none)
    ∧ (send_eth adapterWithKey envReceipt reqBroadcast).1
      = .ok (TxResult.new (format_tx_hash 3405691582) (some 31000) (some true)) := by
  constructor
  · exact (C9_receipt_reconciliation adapterWithKey envDevnet reqBroadcast
      0xf39fd6e51aad88f6f4ce6ab8827279cfffb92266 0x70997970c51812dc3a010c7d01b50e0d17dc79c8
      100000000000000000 21000
      "0xac0974bec39a17e36ba4a6b4d238ff944bacb478cbed5efcae784d7bf4f2ff80" 31337 51966
      rfl (by decide) (by decide) (by decide) rfl (by decide) rfl rfl (by decide) rfl rfl).1 rfl
  · exact (C9_receipt_reconciliation adapterWithKey envReceipt reqBroadcast
      0xf39fd6e51aad88f6f4ce6ab8827279cfffb92266 0x70997970c51812dc3a010c7d01b50e0d17dc79c8
      100000000000000000 21000
      "0xac0974bec39a17e36ba4a6b4d238ff944bacb478cbed5efcae784d7bf4f2ff80" 31337 51966
      rfl (by decide) (by decide) (by decide) rfl (by decide) rfl rfl (by decide) rfl rfl).2
      ⟨3405691582, some 1, some 31000⟩ rfl

/-- Claim C4 (amended): a malformed decimal amount fails with the amount
parse error before gas estimation, the simulation call, any wallet lookup,
and submission — but not before the chain-identifier fetch, which the
pipeline performs first whenever an expected chain id is configured. -/
theorem C4_amount_parse_before_estimation (self : FoundryAdapter) (env : ProviderEnv)
    (req : SendRequest) (fa ta : Nat)
    (hguard : (chain_guard self env).1 = .ok ())
    (hf : EthAddress.from_str req.from_.value = some fa)
    (ht : EthAddress.from_str req.to_.value = some ta)
    (ha : parse_ether req.amount_eth = none) :
    (send_eth self env req).1
      = .error (.other ("invalid decimal amount: " ++ req.amount_eth))
    ∧ Step.estimateGas ∉ (send_eth self env req).2
    ∧ Step.callSim ∉ (send_eth self env req).2
    ∧ Step.walletLookup ∉ (send_eth self env req).2
    ∧ Step.sendTransaction ∉ (send_eth self env req).2 := by
  rw [send_eth_guard_ok self env req hguard]
  have hp : send_eth_pipeline self env req
      = (.error (.other ("invalid decimal amount: " ++ req.amount_eth)), []) := by
    unfold send_eth_pipeline
    simp only [hf, ht, ha]
  rw [hp]
  refine ⟨rfl, ?_, ?_, ?_, ?_⟩ <;> (apply not_mem_guard_append <;> simp)

/-- Witness for the amended C4: a malformed amount on a guard-passing
adapter fails with the parse error and never reaches estimation. -/
theorem C4_witness :
    (send_eth adapterExpect1 envChainId1 reqBadAmount).1
      = .error (.other "invalid decimal amount: one ether")
    ∧ Step.estimateGas ∉ (send_eth adapterExpect1 envChainId1 reqBadAmount).2 := by
  have h := C4_amount_parse_before_estimation adapterExpect1 envChainId1 reqBadAmount
    0xf39fd6e51aad88f6f4ce6ab8827279cfffb92266 0x70997970c51812dc3a010c7d01b50e0d17dc79c8
    (by decide) (by decide) (by decide) (by decide)
  exact ⟨h.1, h.2.1⟩

/-- Counterexample to C4 as stated: with an expected chain id configured,
the transfer with amount `"one ether"` does fail with the amount parse
error, but its step trace is `[getChainId]` — the chain-identifier fetch,
a network call, happened before the parse error, contradicting "before any
network call ... in particular, before the chain-identifier fetch". -/
theorem C4_counterexample :
    (send_eth adapterExpect1 envChainId1 reqBadAmount).1
      = .error (.other "invalid decimal amount: one ether")
    ∧ (send_eth adapterExpect1 envChainId1 reqBadAmount).2 = [Step.getChainId] := by
  exact ⟨by decide, by decide⟩

end ChainAgent
